import Mathlib

/-!
Shallow embedding of the firepit-emitter thermal engine
(`src/model/calc.ts`, plus the historical simple variant) over the reals,
with theorems settling the spec claims about `calcResults`.

Each named intermediate constant of the source is one Lean definition of the
configuration, so the pipeline structure of the source is preserved verbatim.
-/

noncomputable section

namespace FirepitEmitter

/-- Scenario labels from `src/model/schema.ts` (`ScenarioName`). -/
inductive ScenarioName
  | smooth
  | ramp
  | statorRamp
  | custom
deriving DecidableEq

/-- Input configuration record, from `src/model/schema.ts` (`Config`). -/
structure Config where
  scenario : ScenarioName
  burnerBtuPerHr : ℝ
  convectivePlumeFraction : ℝ
  ambientTempF : ℝ
  captureFraction : ℝ
  windLossFraction : ℝ
  bypassFraction : ℝ
  C_effective_W_per_K : ℝ
  inletDiameterIn : ℝ
  outletDiameterIn : ℝ
  emitterHeightIn : ℝ
  inletHeightAboveFlameIn : ℝ
  statorDropIn : ℝ
  stackExtensionIn : ℝ
  UA_W_per_K : ℝ
  etaRad : ℝ
  etaOut : ℝ
  humanAbsorptivity : ℝ
  projectedAreaStandingM2 : ℝ
  projectedAreaSeatedM2 : ℝ
  distancesFromSurfaceFt : List ℝ

/-- One entry of the stack-extension sweep (`Results.stackExtensionAnalysis` element). -/
structure StackExtensionEntry where
  extensionIn : ℝ
  additionalCaptureW : ℝ
  totalWallCapturedW : ℝ
  totalRadiantOutW : ℝ

/-- Output record of the diameter-aware `calcResults` (`src/model/calc.ts`);
all optional TS fields are present in this variant, so they are plain fields here. -/
structure Results where
  burnerPowerW : ℝ
  plumePowerW : ℝ
  capturedPlumeW : ℝ
  capturedEffW : ℝ
  bypassEff : ℝ
  UA_eff : ℝ
  eps : ℝ
  wallCapturedW : ℝ
  outletExhaustW : ℝ
  radiantOutW : ℝ
  effectiveRadiusFt : ℝ
  irradiance_W_m2 : List ℝ
  absorbedStandingW : List ℝ
  absorbedSeatedW : List ℝ
  stackExtensionAnalysis : List StackExtensionEntry

/-- Output record of the historical simple variant (`src/unnamed/part_013`),
which returns only the non-optional fields. -/
structure SimpleResults where
  burnerPowerW : ℝ
  plumePowerW : ℝ
  capturedPlumeW : ℝ
  wallCapturedW : ℝ
  radiantOutW : ℝ
  effectiveRadiusFt : ℝ
  irradiance_W_m2 : List ℝ
  absorbedStandingW : List ℝ
  absorbedSeatedW : List ℝ
  stackExtensionAnalysis : List StackExtensionEntry

/-- `BTU_PER_HR_TO_W` from `src/model/defaults.ts`. -/
def BTU_PER_HR_TO_W : ℝ := 0.29307107

/-- `clamp(value, min, max) = Math.min(max, Math.max(min, value))` from `calc.ts`. -/
def clamp (value lo hi : ℝ) : ℝ := min hi (max lo value)

/-- `effectiveness(UA, C)` from `calc.ts`: `C <= 0 ? 0 : 1 - exp(-UA/C)`. -/
def effectiveness (UA C : ℝ) : ℝ :=
  if C ≤ 0 then 0 else 1 - Real.exp (-UA / C)

/-- `avgRadiusFt(inletDiameterIn, outletDiameterIn)` from `calc.ts`. -/
def avgRadiusFt (inletDiameterIn outletDiameterIn : ℝ) : ℝ :=
  let rIn := inletDiameterIn / 2
  let rOut := outletDiameterIn / 2
  let rAvgIn := (rIn + rOut) / 2
  rAvgIn / 12

/-- `burnerPowerW` in `calcResults`. -/
def burnerPowerW (cfg : Config) : ℝ := cfg.burnerBtuPerHr * BTU_PER_HR_TO_W

/-- `plumePowerW` in `calcResults`. -/
def plumePowerW (cfg : Config) : ℝ := burnerPowerW cfg * cfg.convectivePlumeFraction

/-- `capturedPlumeW` in `calcResults`. -/
def capturedPlumeW (cfg : Config) : ℝ :=
  plumePowerW cfg * cfg.captureFraction * (1 - cfg.windLossFraction)

/-- `outletRefIn` in `calcResults`: the 4-inch baseline outlet diameter. -/
def outletRefIn : ℝ := 4

/-- `outletDIn` in `calcResults`: outlet diameter floored at 0.5 inches. -/
def outletDIn (cfg : Config) : ℝ := max 0.5 cfg.outletDiameterIn

/-- `diameterRatio` in `calcResults`. -/
def diameterRatio (cfg : Config) : ℝ := outletDIn cfg / outletRefIn

/-- `bypassScale` in `calcResults`: `clamp(pow(diameterRatio, 0.8), 0.65, 1.75)`. -/
def bypassScale (cfg : Config) : ℝ :=
  clamp (diameterRatio cfg ^ (0.8 : ℝ)) 0.65 1.75

/-- `uaScale` in `calcResults`: `clamp(pow(1/diameterRatio, 0.35), 0.85, 1.35)`. -/
def uaScale (cfg : Config) : ℝ :=
  clamp ((1 / diameterRatio cfg) ^ (0.35 : ℝ)) 0.85 1.35

/-- `bypassEff` in `calcResults`: `clamp(bypassFraction * bypassScale, 0, 0.95)`. -/
def bypassEff (cfg : Config) : ℝ :=
  clamp (cfg.bypassFraction * bypassScale cfg) 0 0.95

/-- `UA_eff` in `calcResults`. -/
def UA_eff (cfg : Config) : ℝ := cfg.UA_W_per_K * uaScale cfg

/-- `capturedEffW` in `calcResults`. -/
def capturedEffW (cfg : Config) : ℝ := capturedPlumeW cfg * (1 - bypassEff cfg)

/-- `eps` in `calcResults`. -/
def eps (cfg : Config) : ℝ := effectiveness (UA_eff cfg) cfg.C_effective_W_per_K

/-- `wallCapturedW` in `calcResults`. -/
def wallCapturedW (cfg : Config) : ℝ := capturedEffW cfg * eps cfg

/-- `outletExhaustW` in `calcResults`. -/
def outletExhaustW (cfg : Config) : ℝ := capturedPlumeW cfg - wallCapturedW cfg

/-- `radiantOutW` in `calcResults`. -/
def radiantOutW (cfg : Config) : ℝ := wallCapturedW cfg * cfg.etaRad * cfg.etaOut

/-- `rAvgFt` in `calcResults`. -/
def rAvgFt (cfg : Config) : ℝ := avgRadiusFt cfg.inletDiameterIn cfg.outletDiameterIn

/-- Body of the `irradiance` map in `calcResults`:
`dM = (sFt + rAvgFt) * 0.3048; dM > 0 ? radiantOutW / (2πdM²) : 0`. -/
def irradianceAt (cfg : Config) (sFt : ℝ) : ℝ :=
  let dM := (sFt + rAvgFt cfg) * 0.3048
  if 0 < dM then radiantOutW cfg / (2 * Real.pi * dM * dM) else 0

/-- `irradiance` in `calcResults`. -/
def irradiance (cfg : Config) : List ℝ :=
  cfg.distancesFromSurfaceFt.map (irradianceAt cfg)

/-- `absorbedStandingW` in `calcResults`. -/
def absorbedStandingW (cfg : Config) : List ℝ :=
  (irradiance cfg).map (fun E => E * cfg.projectedAreaStandingM2 * cfg.humanAbsorptivity)

/-- `absorbedSeatedW` in `calcResults`. -/
def absorbedSeatedW (cfg : Config) : List ℝ :=
  (irradiance cfg).map (fun E => E * cfg.projectedAreaSeatedM2 * cfg.humanAbsorptivity)

/-- Body of the `stackExtensionAnalysis` map in `calcResults`. -/
def stackEntry (cfg : Config) (extensionIn : ℝ) : StackExtensionEntry :=
  let radiusIn := outletDIn cfg / 2
  let additionalAreaM2 := (2 * Real.pi * radiusIn * extensionIn) * 0.00064516
  let additionalEffectiveness := 0.12 * (1 - Real.exp (-extensionIn / 3))
  let areaFactor := clamp (additionalAreaM2 / 0.10) 0.7 1.3
  let additionalCaptureW :=
    capturedEffW cfg * additionalEffectiveness * (extensionIn / 6) * areaFactor
  let totalWallCapturedW := wallCapturedW cfg + additionalCaptureW
  let totalRadiantOutW := totalWallCapturedW * cfg.etaRad * cfg.etaOut
  { extensionIn := extensionIn
    additionalCaptureW := additionalCaptureW
    totalWallCapturedW := totalWallCapturedW
    totalRadiantOutW := totalRadiantOutW }

/-- `stackExtensionAnalysis` in `calcResults`: the sweep over `[1, 2, 3, 4, 5, 6]`. -/
def stackExtensionAnalysis (cfg : Config) : List StackExtensionEntry :=
  ([1, 2, 3, 4, 5, 6] : List ℝ).map (stackEntry cfg)

/-- `calcResults` from `src/model/calc.ts` (diameter-aware variant). -/
def calcResults (cfg : Config) : Results :=
  { burnerPowerW := burnerPowerW cfg
    plumePowerW := plumePowerW cfg
    capturedPlumeW := capturedPlumeW cfg
    capturedEffW := capturedEffW cfg
    bypassEff := bypassEff cfg
    UA_eff := UA_eff cfg
    eps := eps cfg
    wallCapturedW := wallCapturedW cfg
    outletExhaustW := outletExhaustW cfg
    radiantOutW := radiantOutW cfg
    effectiveRadiusFt := rAvgFt cfg
    irradiance_W_m2 := irradiance cfg
    absorbedStandingW := absorbedStandingW cfg
    absorbedSeatedW := absorbedSeatedW cfg
    stackExtensionAnalysis := stackExtensionAnalysis cfg }

namespace Simple

/-- `capturedEffW` in the simple variant (`src/unnamed/part_013`): raw bypass fraction. -/
def capturedEffW (cfg : Config) : ℝ := capturedPlumeW cfg * (1 - cfg.bypassFraction)

/-- `eps` in the simple variant: raw UA, no scaling. -/
def eps (cfg : Config) : ℝ := effectiveness cfg.UA_W_per_K cfg.C_effective_W_per_K

/-- `wallCapturedW` in the simple variant. -/
def wallCapturedW (cfg : Config) : ℝ := capturedEffW cfg * eps cfg

/-- `radiantOutW` in the simple variant. -/
def radiantOutW (cfg : Config) : ℝ := wallCapturedW cfg * cfg.etaRad * cfg.etaOut

/-- Body of the `irradiance` map in the simple variant. -/
def irradianceAt (cfg : Config) (sFt : ℝ) : ℝ :=
  let dM := (sFt + rAvgFt cfg) * 0.3048
  if 0 < dM then radiantOutW cfg / (2 * Real.pi * dM * dM) else 0

/-- `irradiance` in the simple variant. -/
def irradiance (cfg : Config) : List ℝ :=
  cfg.distancesFromSurfaceFt.map (irradianceAt cfg)

/-- `absorbedStandingW` in the simple variant. -/
def absorbedStandingW (cfg : Config) : List ℝ :=
  (irradiance cfg).map (fun E => E * cfg.projectedAreaStandingM2 * cfg.humanAbsorptivity)

/-- `absorbedSeatedW` in the simple variant. -/
def absorbedSeatedW (cfg : Config) : List ℝ :=
  (irradiance cfg).map (fun E => E * cfg.projectedAreaSeatedM2 * cfg.humanAbsorptivity)

/-- Body of the `stackExtensionAnalysis` map in the simple variant: raw outlet radius,
no area factor. -/
def stackEntry (cfg : Config) (extensionIn : ℝ) : StackExtensionEntry :=
  let radiusIn := cfg.outletDiameterIn / 2
  let additionalAreaM2 := (2 * Real.pi * radiusIn * extensionIn) * 0.00064516
  let additionalEffectiveness := 0.12 * (1 - Real.exp (-extensionIn / 3))
  let additionalCaptureW := capturedEffW cfg * additionalEffectiveness * (extensionIn / 6)
  let totalWallCapturedW := wallCapturedW cfg + additionalCaptureW
  let totalRadiantOutW := totalWallCapturedW * cfg.etaRad * cfg.etaOut
  { extensionIn := extensionIn
    additionalCaptureW := additionalCaptureW
    totalWallCapturedW := totalWallCapturedW
    totalRadiantOutW := totalRadiantOutW }

/-- `stackExtensionAnalysis` in the simple variant. -/
def stackExtensionAnalysis (cfg : Config) : List StackExtensionEntry :=
  ([1, 2, 3, 4, 5, 6] : List ℝ).map (stackEntry cfg)

/-- `calcResults` from `src/unnamed/part_013` (historical simple variant). -/
def calcResults (cfg : Config) : SimpleResults :=
  { burnerPowerW := burnerPowerW cfg
    plumePowerW := plumePowerW cfg
    capturedPlumeW := capturedPlumeW cfg
    wallCapturedW := wallCapturedW cfg
    radiantOutW := radiantOutW cfg
    effectiveRadiusFt := rAvgFt cfg
    irradiance_W_m2 := irradiance cfg
    absorbedStandingW := absorbedStandingW cfg
    absorbedSeatedW := absorbedSeatedW cfg
    stackExtensionAnalysis := stackExtensionAnalysis cfg }

end Simple

/-- The baseline preset values of `src/model/defaults.ts` (`baseConfig` with the
`statorRamp` UA of 28 W/K), used as a concrete evaluation point. -/
def baseCfg : Config :=
  { scenario := ScenarioName.statorRamp
    burnerBtuPerHr := 50000
    convectivePlumeFraction := 0.70
    ambientTempF := 30
    captureFraction := 0.85
    windLossFraction := 0
    bypassFraction := 0.10
    C_effective_W_per_K := 17
    inletDiameterIn := 24
    outletDiameterIn := 3
    emitterHeightIn := 12
    inletHeightAboveFlameIn := 12
    statorDropIn := 5
    stackExtensionIn := 0
    UA_W_per_K := 28
    etaRad := 0.55
    etaOut := 0.65
    humanAbsorptivity := 0.80
    projectedAreaStandingM2 := 0.70
    projectedAreaSeatedM2 := 0.50
    distancesFromSurfaceFt := [2, 3, 4, 5, 6, 7, 8] }

/-- A configuration with all six fractions inside [0,1] but a negative burner
power input: the conservation ordering fails on it. -/
def negBurnerCfg : Config :=
  { scenario := ScenarioName.custom
    burnerBtuPerHr := -1
    convectivePlumeFraction := 0
    ambientTempF := 30
    captureFraction := 0
    windLossFraction := 0
    bypassFraction := 0
    C_effective_W_per_K := 17
    inletDiameterIn := 24
    outletDiameterIn := 3
    emitterHeightIn := 12
    inletHeightAboveFlameIn := 12
    statorDropIn := 5
    stackExtensionIn := 0
    UA_W_per_K := 28
    etaRad := 0
    etaOut := 0
    humanAbsorptivity := 0.80
    projectedAreaStandingM2 := 0.70
    projectedAreaSeatedM2 := 0.50
    distancesFromSurfaceFt := [2] }

theorem clamp_le_hi (value lo hi : ℝ) : clamp value lo hi ≤ hi := min_le_left _ _

theorem lo_le_clamp (value lo hi : ℝ) (h : lo ≤ hi) : lo ≤ clamp value lo hi :=
  le_min h (le_max_left _ _)

theorem clamp_mono (v w lo hi : ℝ) (h : v ≤ w) : clamp v lo hi ≤ clamp w lo hi :=
  min_le_min le_rfl (max_le_max le_rfl h)

theorem clamp_eq_self (v lo hi : ℝ) (h1 : lo ≤ v) (h2 : v ≤ hi) : clamp v lo hi = v := by
  rw [clamp, max_eq_right h1, min_eq_right h2]

theorem effectiveness_le_one (UA C : ℝ) : effectiveness UA C ≤ 1 := by
  unfold effectiveness
  split
  · norm_num
  · have h := Real.exp_pos (-UA / C)
    linarith

theorem effectiveness_lt_one (UA C : ℝ) (hC : 0 < C) : effectiveness UA C < 1 := by
  unfold effectiveness
  rw [if_neg (not_le.mpr hC)]
  have h := Real.exp_pos (-UA / C)
  linarith

theorem effectiveness_nonneg (UA C : ℝ) (hUA : 0 ≤ UA) : 0 ≤ effectiveness UA C := by
  unfold effectiveness
  split
  · exact le_refl 0
  · rename_i hC
    have hCpos : 0 < C := lt_of_not_le hC
    have hdiv : 0 ≤ UA / C := div_nonneg hUA hCpos.le
    have hle : Real.exp (-UA / C) ≤ 1 := by
      rw [neg_div]
      exact Real.exp_le_one_iff.mpr (neg_nonpos.mpr hdiv)
    linarith

theorem effectiveness_of_nonpos (UA C : ℝ) (hC : C ≤ 0) : effectiveness UA C = 0 :=
  if_pos hC

theorem diameterRatio_pos (cfg : Config) : 0 < diameterRatio cfg := by
  rw [diameterRatio, outletDIn, outletRefIn]
  have h : (0.5 : ℝ) ≤ max 0.5 cfg.outletDiameterIn := le_max_left _ _
  positivity

/-- C1 (counterexample): a configuration whose six fractions all lie in [0,1]
but whose burner power is negative violates the claimed conservation ordering:
plumePowerW (= 0) exceeds burnerPowerW (< 0). -/
theorem c1_counterexample :
    ((0 ≤ negBurnerCfg.convectivePlumeFraction ∧ negBurnerCfg.convectivePlumeFraction ≤ 1) ∧
     (0 ≤ negBurnerCfg.captureFraction ∧ negBurnerCfg.captureFraction ≤ 1) ∧
     (0 ≤ negBurnerCfg.windLossFraction ∧ negBurnerCfg.windLossFraction ≤ 1) ∧
     (0 ≤ negBurnerCfg.bypassFraction ∧ negBurnerCfg.bypassFraction ≤ 1) ∧
     (0 ≤ negBurnerCfg.etaRad ∧ negBurnerCfg.etaRad ≤ 1) ∧
     (0 ≤ negBurnerCfg.etaOut ∧ negBurnerCfg.etaOut ≤ 1)) ∧
    ¬ ((calcResults negBurnerCfg).wallCapturedW ≤ (calcResults negBurnerCfg).capturedEffW ∧
       (calcResults negBurnerCfg).capturedEffW ≤ (calcResults negBurnerCfg).capturedPlumeW ∧
       (calcResults negBurnerCfg).capturedPlumeW ≤ (calcResults negBurnerCfg).plumePowerW ∧
       (calcResults negBurnerCfg).plumePowerW ≤ (calcResults negBurnerCfg).burnerPowerW) := by
  constructor
  · norm_num [negBurnerCfg]
  · intro h
    have hlast := h.2.2.2
    have hplume : (calcResults negBurnerCfg).plumePowerW = 0 := by
      show plumePowerW negBurnerCfg = 0
      rw [plumePowerW]
      norm_num [negBurnerCfg]
    have hburn : (calcResults negBurnerCfg).burnerPowerW = -0.29307107 := by
      show burnerPowerW negBurnerCfg = -0.29307107
      rw [burnerPowerW, BTU_PER_HR_TO_W]
      norm_num [negBurnerCfg]
    rw [hplume, hburn] at hlast
    norm_num at hlast

/-- C1 (amended): for every configuration with nonnegative burner power whose
fractions (convective-plume, capture, wind-loss, bypass, etaRad, etaOut) all lie
in [0,1], the results satisfy wallCapturedW ≤ capturedEffW ≤ capturedPlumeW ≤
plumePowerW ≤ burnerPowerW, and equality at a step forces a boundary value
(zero upstream power or a boundary efficiency at that step). -/
theorem c1_conservation_ordering (cfg : Config)
    (hbtu : 0 ≤ cfg.burnerBtuPerHr)
    (hconv : 0 ≤ cfg.convectivePlumeFraction) (hconv1 : cfg.convectivePlumeFraction ≤ 1)
    (hcap : 0 ≤ cfg.captureFraction) (hcap1 : cfg.captureFraction ≤ 1)
    (hwind : 0 ≤ cfg.windLossFraction) (hwind1 : cfg.windLossFraction ≤ 1)
    (hbyp : 0 ≤ cfg.bypassFraction) (hbyp1 : cfg.bypassFraction ≤ 1)
    (hrad : 0 ≤ cfg.etaRad) (hrad1 : cfg.etaRad ≤ 1)
    (hout : 0 ≤ cfg.etaOut) (hout1 : cfg.etaOut ≤ 1) :
    ((calcResults cfg).wallCapturedW ≤ (calcResults cfg).capturedEffW ∧
     (calcResults cfg).capturedEffW ≤ (calcResults cfg).capturedPlumeW ∧
     (calcResults cfg).capturedPlumeW ≤ (calcResults cfg).plumePowerW ∧
     (calcResults cfg).plumePowerW ≤ (calcResults cfg).burnerPowerW) ∧
    ((calcResults cfg).plumePowerW = (calcResults cfg).burnerPowerW →
       (calcResults cfg).burnerPowerW = 0 ∨ cfg.convectivePlumeFraction = 1) ∧
    ((calcResults cfg).capturedPlumeW = (calcResults cfg).plumePowerW →
       (calcResults cfg).plumePowerW = 0 ∨
         cfg.captureFraction * (1 - cfg.windLossFraction) = 1) ∧
    ((calcResults cfg).capturedEffW = (calcResults cfg).capturedPlumeW →
       (calcResults cfg).capturedPlumeW = 0 ∨ (calcResults cfg).bypassEff = 0) ∧
    ((calcResults cfg).wallCapturedW = (calcResults cfg).capturedEffW →
       (calcResults cfg).capturedEffW = 0 ∨ (calcResults cfg).eps = 1) := by
  have hb : 0 ≤ burnerPowerW cfg := by
    rw [burnerPowerW, BTU_PER_HR_TO_W]
    nlinarith
  have hp : 0 ≤ plumePowerW cfg := mul_nonneg hb hconv
  have hcp : 0 ≤ capturedPlumeW cfg :=
    mul_nonneg (mul_nonneg hp hcap) (by linarith)
  have hbe0 : 0 ≤ bypassEff cfg := lo_le_clamp _ 0 0.95 (by norm_num)
  have hbe1 : bypassEff cfg ≤ 0.95 := clamp_le_hi _ _ _
  have hce : 0 ≤ capturedEffW cfg := mul_nonneg hcp (by linarith)
  refine ⟨⟨?_, ?_, ?_, ?_⟩, ?_, ?_, ?_, ?_⟩
  · exact mul_le_of_le_one_right hce (effectiveness_le_one _ _)
  · exact mul_le_of_le_one_right hcp (by linarith)
  · show plumePowerW cfg * cfg.captureFraction * (1 - cfg.windLossFraction) ≤ plumePowerW cfg
    have h1 : plumePowerW cfg * cfg.captureFraction ≤ plumePowerW cfg :=
      mul_le_of_le_one_right hp hcap1
    have h2 : plumePowerW cfg * cfg.captureFraction * (1 - cfg.windLossFraction) ≤
        plumePowerW cfg * cfg.captureFraction :=
      mul_le_of_le_one_right (mul_nonneg hp hcap) (by linarith)
    linarith
  · exact mul_le_of_le_one_right hb hconv1
  · intro heq
    have h0 : burnerPowerW cfg * (cfg.convectivePlumeFraction - 1) = 0 := by
      have : burnerPowerW cfg * cfg.convectivePlumeFraction = burnerPowerW cfg := heq
      nlinarith
    rcases mul_eq_zero.mp h0 with h | h
    · exact Or.inl h
    · exact Or.inr (by linarith)
  · intro heq
    have h0 : plumePowerW cfg * (cfg.captureFraction * (1 - cfg.windLossFraction) - 1) = 0 := by
      have : plumePowerW cfg * cfg.captureFraction * (1 - cfg.windLossFraction) =
          plumePowerW cfg := heq
      nlinarith
    rcases mul_eq_zero.mp h0 with h | h
    · exact Or.inl h
    · exact Or.inr (by linarith)
  · intro heq
    have h0 : capturedPlumeW cfg * (-(bypassEff cfg)) = 0 := by
      have : capturedPlumeW cfg * (1 - bypassEff cfg) = capturedPlumeW cfg := heq
      nlinarith
    rcases mul_eq_zero.mp h0 with h | h
    · exact Or.inl h
    · exact Or.inr (by show bypassEff cfg = 0; linarith [neg_eq_zero.mp h])
  · intro heq
    have h0 : capturedEffW cfg * (eps cfg - 1) = 0 := by
      have : capturedEffW cfg * eps cfg = capturedEffW cfg := heq
      nlinarith
    rcases mul_eq_zero.mp h0 with h | h
    · exact Or.inl h
    · exact Or.inr (by show eps cfg = 1; linarith)

theorem c1_conservation_ordering_witness :
    (calcResults baseCfg).wallCapturedW ≤ (calcResults baseCfg).capturedEffW ∧
    (calcResults baseCfg).capturedEffW ≤ (calcResults baseCfg).capturedPlumeW ∧
    (calcResults baseCfg).capturedPlumeW ≤ (calcResults baseCfg).plumePowerW ∧
    (calcResults baseCfg).plumePowerW ≤ (calcResults baseCfg).burnerPowerW :=
  (c1_conservation_ordering baseCfg (by norm_num [baseCfg]) (by norm_num [baseCfg])
    (by norm_num [baseCfg]) (by norm_num [baseCfg]) (by norm_num [baseCfg])
    (by norm_num [baseCfg]) (by norm_num [baseCfg]) (by norm_num [baseCfg])
    (by norm_num [baseCfg]) (by norm_num [baseCfg]) (by norm_num [baseCfg])
    (by norm_num [baseCfg]) (by norm_num [baseCfg])).1

/-- C2: the effectiveness stage satisfies 0 ≤ ε < 1 for every UA ≥ 0 and C > 0,
and ε = 0 whenever C ≤ 0, without raising an error; consequently with
C_effective set to 0 the result fields eps and wallCapturedW both equal 0. -/
theorem c2_effectiveness_bounds (UA C UA2 C2 : ℝ) (cfg : Config) :
    (0 ≤ UA → 0 < C → 0 ≤ effectiveness UA C ∧ effectiveness UA C < 1) ∧
    (C2 ≤ 0 → effectiveness UA2 C2 = 0) ∧
    (cfg.C_effective_W_per_K = 0 →
      (calcResults cfg).eps = 0 ∧ (calcResults cfg).wallCapturedW = 0) := by
  refine ⟨fun hUA hC => ⟨effectiveness_nonneg UA C hUA, effectiveness_lt_one UA C hC⟩,
    fun hC2 => effectiveness_of_nonpos UA2 C2 hC2, fun hC0 => ?_⟩
  have heps : eps cfg = 0 := by
    rw [eps, hC0]
    exact effectiveness_of_nonpos _ _ le_rfl
  refine ⟨heps, ?_⟩
  show wallCapturedW cfg = 0
  rw [wallCapturedW, heps, mul_zero]

theorem c2_effectiveness_bounds_witness :
    (0 ≤ effectiveness 1 1 ∧ effectiveness 1 1 < 1) ∧
    effectiveness 1 0 = 0 ∧
    ((calcResults { baseCfg with C_effective_W_per_K := 0 }).eps = 0 ∧
      (calcResults { baseCfg with C_effective_W_per_K := 0 }).wallCapturedW = 0) := by
  have h := c2_effectiveness_bounds 1 1 1 0 { baseCfg with C_effective_W_per_K := 0 }
  exact ⟨h.1 (by norm_num) (by norm_num), h.2.1 (by norm_num), h.2.2 rfl⟩

/-- C4: calcResults computes the diameter ratio as max(0.5, outletDiameterIn) / 4,
the bypass scaling factor as clamp(r^0.8, 0.65, 1.75), the effective bypass
fraction as clamp(bypassFraction × bypass scale, 0, 0.95), the UA scaling factor
as clamp(r^(−0.35), 0.85, 1.35), and the effective UA as UA_W_per_K × UA scale. -/
theorem c4_diameter_scaling (cfg : Config) :
    diameterRatio cfg = max 0.5 cfg.outletDiameterIn / 4 ∧
    bypassScale cfg = clamp ((max 0.5 cfg.outletDiameterIn / 4) ^ (0.8 : ℝ)) 0.65 1.75 ∧
    (calcResults cfg).bypassEff = clamp (cfg.bypassFraction * bypassScale cfg) 0 0.95 ∧
    uaScale cfg = clamp ((max 0.5 cfg.outletDiameterIn / 4) ^ (-0.35 : ℝ)) 0.85 1.35 ∧
    (calcResults cfg).UA_eff = cfg.UA_W_per_K * uaScale cfg := by
  have hratio : diameterRatio cfg = max 0.5 cfg.outletDiameterIn / 4 := rfl
  have hpos := diameterRatio_pos cfg
  refine ⟨hratio, by rw [bypassScale, hratio], rfl, ?_, rfl⟩
  have hinv : (1 / diameterRatio cfg) ^ (0.35 : ℝ) =
      diameterRatio cfg ^ (-0.35 : ℝ) := by
    rw [one_div, Real.inv_rpow hpos.le, ← Real.rpow_neg hpos.le]
  rw [uaScale, hinv, hratio]

/-- C7: configurations differing only in the scenario tag, the ambient
temperature, and the configured stack-extension value produce identical
Results in every field, the stack-extension analysis included. -/
theorem c7_unused_fields_noninterference (cfg : Config) (s : ScenarioName) (a e : ℝ) :
    calcResults { cfg with scenario := s, ambientTempF := a, stackExtensionIn := e } =
      calcResults cfg := rfl

theorem effectiveness_pos (UA C : ℝ) (hUA : 0 < UA) (hC : 0 < C) :
    0 < effectiveness UA C := by
  unfold effectiveness
  rw [if_neg (not_le.mpr hC)]
  have hneg : -UA / C < 0 := div_neg_of_neg_of_pos (neg_neg_of_pos hUA) hC
  have h1 : Real.exp (-UA / C) < 1 := by
    calc Real.exp (-UA / C) < Real.exp 0 := Real.exp_lt_exp.mpr hneg
    _ = 1 := Real.exp_zero
  linarith

theorem irradianceAt_anti (cfg : Config) (s1 s2 : ℝ) (h0 : 0 ≤ s1) (h12 : s1 ≤ s2)
    (hr : 0 < rAvgFt cfg) (hrad : 0 ≤ radiantOutW cfg) :
    irradianceAt cfg s2 ≤ irradianceAt cfg s1 := by
  simp only [irradianceAt]
  have hd1 : 0 < (s1 + rAvgFt cfg) * 0.3048 := by nlinarith
  have hd2 : 0 < (s2 + rAvgFt cfg) * 0.3048 := by nlinarith
  rw [if_pos hd1, if_pos hd2]
  have hdle : (s1 + rAvgFt cfg) * 0.3048 ≤ (s2 + rAvgFt cfg) * 0.3048 := by nlinarith
  have hden : 0 < 2 * Real.pi * ((s1 + rAvgFt cfg) * 0.3048) * ((s1 + rAvgFt cfg) * 0.3048) := by
    have := Real.pi_pos
    positivity
  have hsq : (s1 + rAvgFt cfg) * 0.3048 * ((s1 + rAvgFt cfg) * 0.3048) ≤
      (s2 + rAvgFt cfg) * 0.3048 * ((s2 + rAvgFt cfg) * 0.3048) := by nlinarith
  have hdenle : 2 * Real.pi * ((s1 + rAvgFt cfg) * 0.3048) * ((s1 + rAvgFt cfg) * 0.3048) ≤
      2 * Real.pi * ((s2 + rAvgFt cfg) * 0.3048) * ((s2 + rAvgFt cfg) * 0.3048) := by
    have hpi := Real.pi_pos
    calc 2 * Real.pi * ((s1 + rAvgFt cfg) * 0.3048) * ((s1 + rAvgFt cfg) * 0.3048)
        = 2 * Real.pi * ((s1 + rAvgFt cfg) * 0.3048 * ((s1 + rAvgFt cfg) * 0.3048)) := by ring
      _ ≤ 2 * Real.pi * ((s2 + rAvgFt cfg) * 0.3048 * ((s2 + rAvgFt cfg) * 0.3048)) :=
          mul_le_mul_of_nonneg_left hsq (by positivity)
      _ = 2 * Real.pi * ((s2 + rAvgFt cfg) * 0.3048) * ((s2 + rAvgFt cfg) * 0.3048) := by ring
  exact div_le_div_of_nonneg_left hrad hden hdenle

theorem irradianceAt_strict_anti (cfg : Config) (s1 s2 : ℝ) (h0 : 0 ≤ s1) (h12 : s1 < s2)
    (hr : 0 < rAvgFt cfg) (hrad : 0 < radiantOutW cfg) :
    irradianceAt cfg s2 < irradianceAt cfg s1 := by
  simp only [irradianceAt]
  have hd1 : 0 < (s1 + rAvgFt cfg) * 0.3048 := by nlinarith
  have hd2 : 0 < (s2 + rAvgFt cfg) * 0.3048 := by nlinarith
  rw [if_pos hd1, if_pos hd2]
  have hden : 0 < 2 * Real.pi * ((s1 + rAvgFt cfg) * 0.3048) * ((s1 + rAvgFt cfg) * 0.3048) := by
    have := Real.pi_pos
    positivity
  have hsq : (s1 + rAvgFt cfg) * 0.3048 * ((s1 + rAvgFt cfg) * 0.3048) <
      (s2 + rAvgFt cfg) * 0.3048 * ((s2 + rAvgFt cfg) * 0.3048) := by nlinarith
  have hdenlt : 2 * Real.pi * ((s1 + rAvgFt cfg) * 0.3048) * ((s1 + rAvgFt cfg) * 0.3048) <
      2 * Real.pi * ((s2 + rAvgFt cfg) * 0.3048) * ((s2 + rAvgFt cfg) * 0.3048) := by
    have hpi := Real.pi_pos
    calc 2 * Real.pi * ((s1 + rAvgFt cfg) * 0.3048) * ((s1 + rAvgFt cfg) * 0.3048)
        = 2 * Real.pi * ((s1 + rAvgFt cfg) * 0.3048 * ((s1 + rAvgFt cfg) * 0.3048)) := by ring
      _ < 2 * Real.pi * ((s2 + rAvgFt cfg) * 0.3048 * ((s2 + rAvgFt cfg) * 0.3048)) :=
          mul_lt_mul_of_pos_left hsq (by positivity)
      _ = 2 * Real.pi * ((s2 + rAvgFt cfg) * 0.3048) * ((s2 + rAvgFt cfg) * 0.3048) := by ring
  exact div_lt_div_of_pos_left hrad hden hdenlt

/-- C3: entries of the absorbed-power arrays (standing and seated) are
non-increasing in the corresponding distance, and strictly decreasing for
strictly increasing distances when the radiant output power, projected areas
and absorptivity are positive. -/
theorem c3_monotonic_falloff (cfg : Config) (i j : ℕ) (si sj ai aj bi bj : ℝ)
    (hsi : cfg.distancesFromSurfaceFt.get? i = some si)
    (hsj : cfg.distancesFromSurfaceFt.get? j = some sj)
    (h0 : 0 ≤ si) (hij : si ≤ sj)
    (hr : 0 < rAvgFt cfg) (hrad : 0 ≤ (calcResults cfg).radiantOutW)
    (hAs : 0 ≤ cfg.projectedAreaStandingM2) (hAt : 0 ≤ cfg.projectedAreaSeatedM2)
    (hab : 0 ≤ cfg.humanAbsorptivity)
    (hai : (calcResults cfg).absorbedStandingW.get? i = some ai)
    (haj : (calcResults cfg).absorbedStandingW.get? j = some aj)
    (hbi : (calcResults cfg).absorbedSeatedW.get? i = some bi)
    (hbj : (calcResults cfg).absorbedSeatedW.get? j = some bj) :
    (aj ≤ ai ∧ bj ≤ bi) ∧
    (si < sj → 0 < (calcResults cfg).radiantOutW → 0 < cfg.projectedAreaStandingM2 →
      0 < cfg.projectedAreaSeatedM2 → 0 < cfg.humanAbsorptivity → aj < ai ∧ bj < bi) := by
  have hstand : ∀ (k : ℕ) (s : ℝ), cfg.distancesFromSurfaceFt.get? k = some s →
      (calcResults cfg).absorbedStandingW.get? k =
        some (irradianceAt cfg s * cfg.projectedAreaStandingM2 * cfg.humanAbsorptivity) := by
    intro k s hk
    show (absorbedStandingW cfg).get? k = _
    rw [absorbedStandingW, irradiance, List.get?_map, List.get?_map, hk]
    rfl
  have hseat : ∀ (k : ℕ) (s : ℝ), cfg.distancesFromSurfaceFt.get? k = some s →
      (calcResults cfg).absorbedSeatedW.get? k =
        some (irradianceAt cfg s * cfg.projectedAreaSeatedM2 * cfg.humanAbsorptivity) := by
    intro k s hk
    show (absorbedSeatedW cfg).get? k = _
    rw [absorbedSeatedW, irradiance, List.get?_map, List.get?_map, hk]
    rfl
  have hva : ai = irradianceAt cfg si * cfg.projectedAreaStandingM2 * cfg.humanAbsorptivity := by
    have h := hstand i si hsi
    rw [hai] at h
    exact Option.some.inj h
  have hva2 : aj = irradianceAt cfg sj * cfg.projectedAreaStandingM2 * cfg.humanAbsorptivity := by
    have h := hstand j sj hsj
    rw [haj] at h
    exact Option.some.inj h
  have hvb : bi = irradianceAt cfg si * cfg.projectedAreaSeatedM2 * cfg.humanAbsorptivity := by
    have h := hseat i si hsi
    rw [hbi] at h
    exact Option.some.inj h
  have hvb2 : bj = irradianceAt cfg sj * cfg.projectedAreaSeatedM2 * cfg.humanAbsorptivity := by
    have h := hseat j sj hsj
    rw [hbj] at h
    exact Option.some.inj h
  have hradw : 0 ≤ radiantOutW cfg := hrad
  have hmono := irradianceAt_anti cfg si sj h0 hij hr hradw
  constructor
  · constructor
    · rw [hva, hva2]
      exact mul_le_mul_of_nonneg_right (mul_le_mul_of_nonneg_right hmono hAs) hab
    · rw [hvb, hvb2]
      exact mul_le_mul_of_nonneg_right (mul_le_mul_of_nonneg_right hmono hAt) hab
  · intro hlt hradpos hAsp hAtp habp
    have hstrict := irradianceAt_strict_anti cfg si sj h0 hlt hr hradpos
    constructor
    · rw [hva, hva2]
      exact mul_lt_mul_of_pos_right (mul_lt_mul_of_pos_right hstrict hAsp) habp
    · rw [hvb, hvb2]
      exact mul_lt_mul_of_pos_right (mul_lt_mul_of_pos_right hstrict hAtp) habp

theorem baseCfg_capEff_pos : 0 < capturedEffW baseCfg := by
  have hcp : 0 < capturedPlumeW baseCfg := by
    norm_num [capturedPlumeW, plumePowerW, burnerPowerW, BTU_PER_HR_TO_W, baseCfg]
  have hbe : bypassEff baseCfg ≤ 0.95 := clamp_le_hi _ _ _
  exact mul_pos hcp (by linarith)

theorem baseCfg_radiant_pos : 0 < radiantOutW baseCfg := by
  have hce : 0 < capturedEffW baseCfg := baseCfg_capEff_pos
  have hus : (0.85 : ℝ) ≤ uaScale baseCfg := lo_le_clamp _ _ _ (by norm_num)
  have hua : 0 < UA_eff baseCfg := by
    rw [UA_eff]
    have hUA : baseCfg.UA_W_per_K = 28 := rfl
    nlinarith
  have heps : 0 < eps baseCfg := by
    rw [eps]
    exact effectiveness_pos _ _ hua (by norm_num [baseCfg])
  have hwall : 0 < wallCapturedW baseCfg := mul_pos hce heps
  rw [radiantOutW]
  have h1 : (0 : ℝ) < baseCfg.etaRad := by norm_num [baseCfg]
  have h2 : (0 : ℝ) < baseCfg.etaOut := by norm_num [baseCfg]
  exact mul_pos (mul_pos hwall h1) h2

theorem c3_monotonic_falloff_witness :
    ((irradianceAt baseCfg 3 * baseCfg.projectedAreaStandingM2 * baseCfg.humanAbsorptivity ≤
        irradianceAt baseCfg 2 * baseCfg.projectedAreaStandingM2 * baseCfg.humanAbsorptivity ∧
      irradianceAt baseCfg 3 * baseCfg.projectedAreaSeatedM2 * baseCfg.humanAbsorptivity ≤
        irradianceAt baseCfg 2 * baseCfg.projectedAreaSeatedM2 * baseCfg.humanAbsorptivity) ∧
     (irradianceAt baseCfg 3 * baseCfg.projectedAreaStandingM2 * baseCfg.humanAbsorptivity <
        irradianceAt baseCfg 2 * baseCfg.projectedAreaStandingM2 * baseCfg.humanAbsorptivity ∧
      irradianceAt baseCfg 3 * baseCfg.projectedAreaSeatedM2 * baseCfg.humanAbsorptivity <
        irradianceAt baseCfg 2 * baseCfg.projectedAreaSeatedM2 * baseCfg.humanAbsorptivity)) := by
  have hradpos : 0 < (calcResults baseCfg).radiantOutW := baseCfg_radiant_pos
  have h := c3_monotonic_falloff baseCfg 0 1 2 3
    (irradianceAt baseCfg 2 * baseCfg.projectedAreaStandingM2 * baseCfg.humanAbsorptivity)
    (irradianceAt baseCfg 3 * baseCfg.projectedAreaStandingM2 * baseCfg.humanAbsorptivity)
    (irradianceAt baseCfg 2 * baseCfg.projectedAreaSeatedM2 * baseCfg.humanAbsorptivity)
    (irradianceAt baseCfg 3 * baseCfg.projectedAreaSeatedM2 * baseCfg.humanAbsorptivity)
    rfl rfl (by norm_num) (by norm_num)
    (by norm_num [rAvgFt, avgRadiusFt, baseCfg]) hradpos.le
    (by norm_num [baseCfg]) (by norm_num [baseCfg]) (by norm_num [baseCfg])
    rfl rfl rfl rfl
  exact ⟨h.1, h.2 (by norm_num) hradpos (by norm_num [baseCfg]) (by norm_num [baseCfg])
    (by norm_num [baseCfg])⟩

/-- C5: degenerate distance entries (physical distance ≤ 0) yield irradiance 0
rather than a division by zero, and an empty distances list yields empty
irradiance and absorbed-power arrays; no error is raised in either case. -/
theorem c5_graceful_degradation (cfg cfg2 : Config) (i : ℕ) (s : ℝ) :
    (cfg.distancesFromSurfaceFt.get? i = some s → (s + rAvgFt cfg) * 0.3048 ≤ 0 →
      (calcResults cfg).irradiance_W_m2.get? i = some 0) ∧
    (cfg2.distancesFromSurfaceFt = [] →
      (calcResults cfg2).irradiance_W_m2 = [] ∧
      (calcResults cfg2).absorbedStandingW = [] ∧
      (calcResults cfg2).absorbedSeatedW = []) := by
  constructor
  · intro hs hd
    show (irradiance cfg).get? i = some 0
    rw [irradiance, List.get?_map, hs]
    have hz : irradianceAt cfg s = 0 := by
      simp only [irradianceAt]
      rw [if_neg (not_lt.mpr hd)]
    rw [Option.map_some', hz]
  · intro h
    refine ⟨?_, ?_, ?_⟩
    · show irradiance cfg2 = []
      rw [irradiance, h]
      rfl
    · show absorbedStandingW cfg2 = []
      rw [absorbedStandingW, irradiance, h]
      rfl
    · show absorbedSeatedW cfg2 = []
      rw [absorbedSeatedW, irradiance, h]
      rfl

theorem c5_graceful_degradation_witness :
    (calcResults { baseCfg with distancesFromSurfaceFt := [-100] }).irradiance_W_m2.get? 0 =
      some 0 ∧
    ((calcResults { baseCfg with distancesFromSurfaceFt := [] }).irradiance_W_m2 = [] ∧
     (calcResults { baseCfg with distancesFromSurfaceFt := [] }).absorbedStandingW = [] ∧
     (calcResults { baseCfg with distancesFromSurfaceFt := [] }).absorbedSeatedW = []) := by
  have h := c5_graceful_degradation { baseCfg with distancesFromSurfaceFt := [-100] }
    { baseCfg with distancesFromSurfaceFt := [] } 0 (-100)
  exact ⟨h.1 rfl (by norm_num [rAvgFt, avgRadiusFt, baseCfg]), h.2 rfl⟩

/-- C8: at the 4-inch reference outlet diameter (diameter ratio 1, both
scaling factors 1) and a bypass fraction in [0, 0.95], the historical simple
variant and the diameter-aware calcResults agree on every shared field. -/
theorem c8_variant_agreement (cfg : Config)
    (hd : cfg.outletDiameterIn = 4)
    (hb0 : 0 ≤ cfg.bypassFraction) (hb1 : cfg.bypassFraction ≤ 0.95) :
    (Simple.calcResults cfg).burnerPowerW = (calcResults cfg).burnerPowerW ∧
    (Simple.calcResults cfg).plumePowerW = (calcResults cfg).plumePowerW ∧
    (Simple.calcResults cfg).capturedPlumeW = (calcResults cfg).capturedPlumeW ∧
    (Simple.calcResults cfg).wallCapturedW = (calcResults cfg).wallCapturedW ∧
    (Simple.calcResults cfg).radiantOutW = (calcResults cfg).radiantOutW ∧
    (Simple.calcResults cfg).effectiveRadiusFt = (calcResults cfg).effectiveRadiusFt ∧
    (Simple.calcResults cfg).irradiance_W_m2 = (calcResults cfg).irradiance_W_m2 ∧
    (Simple.calcResults cfg).absorbedStandingW = (calcResults cfg).absorbedStandingW ∧
    (Simple.calcResults cfg).absorbedSeatedW = (calcResults cfg).absorbedSeatedW := by
  have hout : outletDIn cfg = 4 := by
    rw [outletDIn, hd]
    exact max_eq_right (by norm_num)
  have hr : diameterRatio cfg = 1 := by
    rw [diameterRatio, hout, outletRefIn]
    norm_num
  have hbs : bypassScale cfg = 1 := by
    rw [bypassScale, hr, Real.one_rpow]
    exact clamp_eq_self _ _ _ (by norm_num) (by norm_num)
  have hus : uaScale cfg = 1 := by
    rw [uaScale, hr]
    have h11 : (1 : ℝ) / 1 = 1 := by norm_num
    rw [h11, Real.one_rpow]
    exact clamp_eq_self _ _ _ (by norm_num) (by norm_num)
  have hbe : bypassEff cfg = cfg.bypassFraction := by
    rw [bypassEff, hbs, mul_one]
    exact clamp_eq_self _ _ _ hb0 hb1
  have hua : UA_eff cfg = cfg.UA_W_per_K := by
    rw [UA_eff, hus, mul_one]
  have hce : capturedEffW cfg = Simple.capturedEffW cfg := by
    rw [capturedEffW, hbe, Simple.capturedEffW]
  have heps : eps cfg = Simple.eps cfg := by
    rw [eps, hua, Simple.eps]
  have hwall : wallCapturedW cfg = Simple.wallCapturedW cfg := by
    rw [wallCapturedW, hce, heps, Simple.wallCapturedW]
  have hradiant : radiantOutW cfg = Simple.radiantOutW cfg := by
    rw [radiantOutW, hwall, Simple.radiantOutW]
  have hirrAt : Simple.irradianceAt cfg = irradianceAt cfg := by
    funext s
    rw [Simple.irradianceAt, irradianceAt, hradiant]
  have hirr : Simple.irradiance cfg = irradiance cfg := by
    rw [Simple.irradiance, irradiance, hirrAt]
  refine ⟨rfl, rfl, rfl, hwall.symm, hradiant.symm, rfl, hirr, ?_, ?_⟩
  · show Simple.absorbedStandingW cfg = absorbedStandingW cfg
    rw [Simple.absorbedStandingW, absorbedStandingW, hirr]
  · show Simple.absorbedSeatedW cfg = absorbedSeatedW cfg
    rw [Simple.absorbedSeatedW, absorbedSeatedW, hirr]

theorem c8_variant_agreement_witness :
    (Simple.calcResults { baseCfg with outletDiameterIn := 4 }).wallCapturedW =
      (calcResults { baseCfg with outletDiameterIn := 4 }).wallCapturedW ∧
    (Simple.calcResults { baseCfg with outletDiameterIn := 4 }).absorbedStandingW =
      (calcResults { baseCfg with outletDiameterIn := 4 }).absorbedStandingW := by
  have h := c8_variant_agreement { baseCfg with outletDiameterIn := 4 } rfl
    (by norm_num [baseCfg]) (by norm_num [baseCfg])
  exact ⟨h.2.2.2.1, h.2.2.2.2.2.2.2.1⟩

/-- C9: effectiveRadiusFt is computed from the raw configured outlet diameter as
((inletDiameterIn/2 + outletDiameterIn/2)/2)/12, without the 0.5-inch floor,
while for outletDiameterIn ≤ 0 the bypass/UA scaling uses the floored 0.5 inches. -/
theorem c9_unfloored_radius (cfg : Config) :
    (calcResults cfg).effectiveRadiusFt =
      ((cfg.inletDiameterIn / 2 + cfg.outletDiameterIn / 2) / 2) / 12 ∧
    (cfg.outletDiameterIn ≤ 0 →
      outletDIn cfg = 0.5 ∧
      (calcResults cfg).bypassEff =
        clamp (cfg.bypassFraction * clamp (((0.5 : ℝ) / 4) ^ (0.8 : ℝ)) 0.65 1.75) 0 0.95 ∧
      (calcResults cfg).UA_eff =
        cfg.UA_W_per_K * clamp ((1 / ((0.5 : ℝ) / 4)) ^ (0.35 : ℝ)) 0.85 1.35) := by
  refine ⟨rfl, fun h => ?_⟩
  have hfloor : outletDIn cfg = 0.5 := max_eq_left (by linarith)
  have hratio : diameterRatio cfg = (0.5 : ℝ) / 4 := by
    rw [diameterRatio, hfloor, outletRefIn]
  refine ⟨hfloor, ?_, ?_⟩
  · show bypassEff cfg = _
    rw [bypassEff, bypassScale, hratio]
  · show UA_eff cfg = _
    rw [UA_eff, uaScale, hratio]

theorem c9_unfloored_radius_witness :
    outletDIn { baseCfg with outletDiameterIn := -2 } = 0.5 ∧
    (calcResults { baseCfg with outletDiameterIn := -2 }).UA_eff =
      baseCfg.UA_W_per_K * clamp ((1 / ((0.5 : ℝ) / 4)) ^ (0.35 : ℝ)) 0.85 1.35 := by
  have h := (c9_unfloored_radius { baseCfg with outletDiameterIn := -2 }).2 (by norm_num)
  exact ⟨h.1, h.2.2⟩

theorem exp_two_lt : Real.exp 2 < 7.3890561 := by
  have h := Real.exp_one_lt_d9
  have h2 : Real.exp 2 = Real.exp 1 * Real.exp 1 := by
    rw [← Real.exp_add]
    norm_num
  have hp := Real.exp_pos 1
  nlinarith [mul_lt_mul_of_pos_left h hp,
    mul_lt_mul_of_pos_right h (by norm_num : (0 : ℝ) < 2.7182818286)]

theorem exp_neg_two_gt : (0.135 : ℝ) < Real.exp (-2) := by
  have h2 := exp_two_lt
  have hp : (0 : ℝ) < Real.exp 2 := Real.exp_pos 2
  have hinv : Real.exp (-2) * Real.exp 2 = 1 := by
    rw [← Real.exp_add]
    norm_num
  nlinarith [Real.exp_pos (-2)]

theorem mem_sweep_bounds (x : ℝ) (hx : x ∈ ([1, 2, 3, 4, 5, 6] : List ℝ)) :
    1 ≤ x ∧ x ≤ 6 := by
  simp only [List.mem_cons, List.not_mem_nil, or_false] at hx
  rcases hx with rfl | rfl | rfl | rfl | rfl | rfl <;> norm_num

theorem sweep_term_le (cap E t A : ℝ) (hcap : 0 ≤ cap) (hE0 : 0 ≤ E)
    (hEb : E ≤ 0.12 * (1 - Real.exp (-2))) (ht0 : 0 ≤ t) (ht1 : t ≤ 1)
    (hA0 : 0 ≤ A) (hA1 : A ≤ 1.3) : cap * E * t * A ≤ 0.15 * cap := by
  have h1 : cap * E * t * A ≤ cap * E * t * 1.3 :=
    mul_le_mul_of_nonneg_left hA1 (mul_nonneg (mul_nonneg hcap hE0) ht0)
  have h2 : cap * E * t ≤ cap * E := mul_le_of_le_one_right (mul_nonneg hcap hE0) ht1
  have h3 : cap * E ≤ cap * (0.12 * (1 - Real.exp (-2))) := mul_le_mul_of_nonneg_left hEb hcap
  have h4 : cap * E * t * 1.3 ≤ cap * E * 1.3 := by linarith
  have h5 : cap * E * 1.3 ≤ cap * (0.12 * (1 - Real.exp (-2))) * 1.3 := by linarith
  have hx := exp_neg_two_gt
  have hterm : (0 : ℝ) ≤ 0.156 * Real.exp (-2) - 0.006 := by linarith
  have h6 : cap * (0.12 * (1 - Real.exp (-2))) * 1.3 ≤ 0.15 * cap := by
    nlinarith [mul_nonneg hcap hterm]
  linarith

theorem sweep_term_strict (cap E1 E2 t1 t2 A1 A2 : ℝ) (hcap : 0 < cap)
    (hE1 : 0 < E1) (hE12 : E1 < E2) (ht1 : 0 < t1) (ht12 : t1 < t2)
    (hA1 : 0 < A1) (hA12 : A1 ≤ A2) : cap * E1 * t1 * A1 < cap * E2 * t2 * A2 := by
  have hX : E1 * t1 < E2 * t2 := by nlinarith
  have hX2 : 0 < E2 * t2 := lt_trans (mul_pos hE1 ht1) hX
  have h1 : cap * (E1 * t1) * A1 < cap * (E2 * t2) * A1 :=
    mul_lt_mul_of_pos_right (mul_lt_mul_of_pos_left hX hcap) hA1
  have h2 : cap * (E2 * t2) * A1 ≤ cap * (E2 * t2) * A2 :=
    mul_le_mul_of_nonneg_left hA12 (mul_nonneg hcap.le hX2.le)
  calc cap * E1 * t1 * A1 = cap * (E1 * t1) * A1 := by ring
    _ < cap * (E2 * t2) * A1 := h1
    _ ≤ cap * (E2 * t2) * A2 := h2
    _ = cap * E2 * t2 * A2 := by ring

theorem stackEntry_additional_le (cfg : Config) (h : ℝ) (h0 : 0 ≤ h) (h6 : h ≤ 6)
    (hcap : 0 ≤ capturedEffW cfg) :
    (stackEntry cfg h).additionalCaptureW ≤ 0.15 * capturedEffW cfg := by
  simp only [stackEntry]
  apply sweep_term_le _ _ _ _ hcap
  · have hle : Real.exp (-h / 3) ≤ 1 := Real.exp_le_one_iff.mpr (by linarith)
    linarith
  · have hge : Real.exp (-2) ≤ Real.exp (-h / 3) := Real.exp_le_exp.mpr (by linarith)
    linarith
  · linarith
  · linarith
  · exact le_trans (by norm_num) (lo_le_clamp _ _ _ (by norm_num))
  · exact clamp_le_hi _ _ _

theorem stackEntry_additional_nonneg (cfg : Config) (h : ℝ) (h0 : 0 ≤ h)
    (hcap : 0 ≤ capturedEffW cfg) : 0 ≤ (stackEntry cfg h).additionalCaptureW := by
  simp only [stackEntry]
  have hE0 : 0 ≤ 0.12 * (1 - Real.exp (-h / 3)) := by
    have hle : Real.exp (-h / 3) ≤ 1 := Real.exp_le_one_iff.mpr (by linarith)
    linarith
  have hA0 : (0 : ℝ) ≤
      clamp (2 * Real.pi * (outletDIn cfg / 2) * h * 0.00064516 / 0.10) 0.7 1.3 :=
    le_trans (by norm_num) (lo_le_clamp _ _ _ (by norm_num))
  exact mul_nonneg (mul_nonneg (mul_nonneg hcap hE0) (by linarith)) hA0

theorem stackEntry_additional_strictMono (cfg : Config) (h1 h2 : ℝ)
    (hp : 0 < h1) (h12 : h1 < h2) (hcap : 0 < capturedEffW cfg) :
    (stackEntry cfg h1).additionalCaptureW < (stackEntry cfg h2).additionalCaptureW := by
  simp only [stackEntry]
  apply sweep_term_strict _ _ _ _ _ _ _ hcap
  · have hlt : Real.exp (-h1 / 3) < 1 := by
      calc Real.exp (-h1 / 3) < Real.exp 0 := Real.exp_lt_exp.mpr (by linarith)
        _ = 1 := Real.exp_zero
    linarith
  · have hlt : Real.exp (-h2 / 3) < Real.exp (-h1 / 3) := Real.exp_lt_exp.mpr (by linarith)
    linarith
  · linarith
  · linarith
  · exact lt_of_lt_of_le (by norm_num) (lo_le_clamp _ _ _ (by norm_num))
  · apply clamp_mono
    have hr : (0.25 : ℝ) ≤ outletDIn cfg / 2 := by
      have hd : (0.5 : ℝ) ≤ outletDIn cfg := le_max_left _ _
      linarith
    have hpi := Real.pi_pos
    have hK : (0 : ℝ) ≤ 2 * Real.pi * (outletDIn cfg / 2) :=
      mul_nonneg (by positivity) (by linarith)
    have harg : 2 * Real.pi * (outletDIn cfg / 2) * h1 ≤
        2 * Real.pi * (outletDIn cfg / 2) * h2 :=
      mul_le_mul_of_nonneg_left h12.le hK
    have harg2 : 2 * Real.pi * (outletDIn cfg / 2) * h1 * 0.00064516 ≤
        2 * Real.pi * (outletDIn cfg / 2) * h2 * 0.00064516 :=
      mul_le_mul_of_nonneg_right harg (by norm_num)
    exact (div_le_div_right (by norm_num)).mpr harg2

/-- C6: for every configuration with nonnegative effective captured power, each
sweep entry's additionalCaptureW is at most 0.15 × capturedEffW: the
diminishing-returns curve stays a small bounded fraction of the captured power. -/
theorem c6_stack_sweep_bounded (cfg : Config)
    (hcap : 0 ≤ (calcResults cfg).capturedEffW) :
    ∀ e ∈ (calcResults cfg).stackExtensionAnalysis,
      e.additionalCaptureW ≤ 0.15 * (calcResults cfg).capturedEffW := by
  intro e he
  have hcap2 : 0 ≤ capturedEffW cfg := hcap
  have he2 : e ∈ ([1, 2, 3, 4, 5, 6] : List ℝ).map (stackEntry cfg) := he
  obtain ⟨x, hx, rfl⟩ := List.mem_map.mp he2
  have hb := mem_sweep_bounds x hx
  exact stackEntry_additional_le cfg x (by linarith [hb.1]) hb.2 hcap2

theorem c6_stack_sweep_bounded_witness :
    (stackEntry baseCfg 1).additionalCaptureW ≤
      0.15 * (calcResults baseCfg).capturedEffW :=
  c6_stack_sweep_bounded baseCfg baseCfg_capEff_pos.le (stackEntry baseCfg 1)
    (List.mem_map_of_mem _ (List.mem_cons_self _ _))

/-- C10: with capturedEffW > 0 the sweep's additionalCaptureW is strictly
increasing along the extension lengths 1..6; and with capturedEffW ≥ 0 and
nonnegative etaRad, etaOut, every entry's totalWallCapturedW dominates the
baseline wallCapturedW and its totalRadiantOutW dominates the baseline
radiantOutW. -/
theorem c10_stack_sweep_relational (cfg : Config) :
    (0 < (calcResults cfg).capturedEffW →
      ((calcResults cfg).stackExtensionAnalysis.map
          StackExtensionEntry.additionalCaptureW).Pairwise (fun a b => a < b)) ∧
    (0 ≤ (calcResults cfg).capturedEffW → 0 ≤ cfg.etaRad → 0 ≤ cfg.etaOut →
      ∀ e ∈ (calcResults cfg).stackExtensionAnalysis,
        (calcResults cfg).wallCapturedW ≤ e.totalWallCapturedW ∧
        (calcResults cfg).radiantOutW ≤ e.totalRadiantOutW) := by
  constructor
  · intro hcap
    have hcap2 : 0 < capturedEffW cfg := hcap
    show ((stackExtensionAnalysis cfg).map StackExtensionEntry.additionalCaptureW).Pairwise _
    rw [stackExtensionAnalysis, List.map_map, List.pairwise_map]
    have mono : ∀ a b : ℝ, 0 < a → a < b →
        (StackExtensionEntry.additionalCaptureW ∘ stackEntry cfg) a <
          (StackExtensionEntry.additionalCaptureW ∘ stackEntry cfg) b := by
      intro a b ha hab
      exact stackEntry_additional_strictMono cfg a b ha hab hcap2
    refine List.Pairwise.cons ?_ (List.Pairwise.cons ?_ (List.Pairwise.cons ?_
      (List.Pairwise.cons ?_ (List.Pairwise.cons ?_ (List.Pairwise.cons
        (fun b hb => absurd hb (List.not_mem_nil b)) List.Pairwise.nil))))) <;>
      · intro b hb
        fin_cases hb <;> exact mono _ _ (by norm_num) (by norm_num)
  · intro hcap hr ho e he
    have he2 : e ∈ ([1, 2, 3, 4, 5, 6] : List ℝ).map (stackEntry cfg) := he
    obtain ⟨x, hx, rfl⟩ := List.mem_map.mp he2
    have hb := mem_sweep_bounds x hx
    have hadd : 0 ≤ (stackEntry cfg x).additionalCaptureW :=
      stackEntry_additional_nonneg cfg x (by linarith [hb.1]) hcap
    constructor
    · show wallCapturedW cfg ≤ (stackEntry cfg x).totalWallCapturedW
      have htot : (stackEntry cfg x).totalWallCapturedW =
          wallCapturedW cfg + (stackEntry cfg x).additionalCaptureW := by
        simp only [stackEntry]
      rw [htot]
      linarith
    · show radiantOutW cfg ≤ (stackEntry cfg x).totalRadiantOutW
      have htot : (stackEntry cfg x).totalRadiantOutW =
          (wallCapturedW cfg + (stackEntry cfg x).additionalCaptureW) *
            cfg.etaRad * cfg.etaOut := by
        simp only [stackEntry]
      rw [htot, radiantOutW]
      nlinarith [mul_nonneg (mul_nonneg hadd hr) ho]

theorem c10_stack_sweep_relational_witness :
    ((calcResults baseCfg).stackExtensionAnalysis.map
        StackExtensionEntry.additionalCaptureW).Pairwise (fun a b => a < b) ∧
    ((calcResults baseCfg).wallCapturedW ≤ (stackEntry baseCfg 1).totalWallCapturedW ∧
     (calcResults baseCfg).radiantOutW ≤ (stackEntry baseCfg 1).totalRadiantOutW) := by
  have h := c10_stack_sweep_relational baseCfg
  exact ⟨h.1 baseCfg_capEff_pos,
    h.2 baseCfg_capEff_pos.le (by norm_num [baseCfg]) (by norm_num [baseCfg])
      (stackEntry baseCfg 1) (List.mem_map_of_mem _ (List.mem_cons_self _ _))⟩

end FirepitEmitter

end
